import Mathlib

/-!
Verification of the python-fmask configuration module.

A shallow embedding of `fmask/config.py` and `bin/fmask_sentinel2Stacked.py`
into Lean 4, with theorems about the embedded definitions.

Modelling conventions:
* Python floats are modelled as exact rationals (`ℚ`) for the arithmetic the
  code performs with `+ * /` and comparisons, and as reals (`ℝ`) where a
  transcendental function (`numpy.log`, `numpy.radians`) enters.
* Python exceptions are modelled by `Except PyError`; each built-in or
  fmask-specific exception class gets a `PyError` constructor.
* Python dictionaries whose values are strings are modelled as association
  lists with a last-binding-wins lookup, or as functions `String → Option _`
  when built by imperative update.
-/

deriving instance DecidableEq for Except

namespace Fmask

/-- Python `str.split(sep)` for a one-character separator, on the character
list: every occurrence of the separator splits, empty pieces are kept, and
the empty string yields one empty piece. -/
def splitOnChar (sep : Char) : List Char → List (List Char)
  | [] => [[]]
  | c :: rest =>
    let r := splitOnChar sep rest
    if c = sep then [] :: r
    else
      match r with
      | h :: t => (c :: h) :: t
      | [] => [[c]]

/-- Python `str.split(sep)` on strings. -/
def pySplit (s : String) (sep : Char) : List String :=
  (splitOnChar sep s.data).map String.mk

/-- The characters Python `str.strip()` removes. -/
def isPySpace (c : Char) : Bool :=
  c = ' ' || c = '\t' || c = '\n' || c = '\r' || c = '\x0b' || c = '\x0c'

/-- Python `str.strip()`: remove leading and trailing whitespace. -/
def pyStrip (s : String) : String :=
  String.mk (((s.data.dropWhile isPySpace).reverse.dropWhile isPySpace).reverse)

/-- The exception classes the embedded code can raise: the two fmask error
classes from `fmaskerrors`, and the Python built-ins the code can hit. -/
inductive PyError where
  | fmaskFileError (msg : String)
  | fmaskParameterError (msg : String)
  | keyError (key : String)
  | indexError (idx : Nat)
  | unboundLocalError (name : String)
  | typeError (msg : String)
  | valueError (msg : String)
  | attributeError (msg : String)
  deriving DecidableEq, Repr

/-- Value of consecutive decimal digits, most significant first. -/
def digitsToNat (cs : List Char) : Nat :=
  cs.foldl (fun n c => n * 10 + (c.toNat - 48)) 0

/-- Model of Python `float(s)` on the decimal literals the repository's data
files use: optional surrounding whitespace, optional sign, an integer part
and an optional fractional part.  Returns `none` where Python raises
`ValueError`. -/
def pyFloat (s : String) : Option ℚ :=
  let t := pyStrip s
  let (neg, cs) :=
    match t.data with
    | '-' :: rest => (true, rest)
    | '+' :: rest => (false, rest)
    | cs => (false, cs)
  let intPart := cs.takeWhile Char.isDigit
  let rest := cs.dropWhile Char.isDigit
  let value : Option ℚ :=
    match rest with
    | [] => if intPart.isEmpty then none else some (digitsToNat intPart)
    | '.' :: frac =>
        if frac.all Char.isDigit && (!intPart.isEmpty || !frac.isEmpty) then
          some ((digitsToNat intPart : ℚ) +
            (digitsToNat frac : ℚ) / ((10 : ℚ) ^ frac.length))
        else none
    | _ => none
  value.map (fun q => if neg then -q else q)

/-- `float(s)` raising `ValueError` on failure. -/
def pyFloatE (s : String) : Except PyError ℚ :=
  match pyFloat s with
  | some q => Except.ok q
  | none => Except.error (PyError.valueError s)

/-- Lookup in an association list, last binding wins (Python dict built by
repeated assignment appends/overwrites; we keep all entries and read the
latest). -/
def dictLookup {α : Type} (m : List (String × α)) (k : String) : Option α :=
  (m.reverse.find? (fun p => p.1 = k)).map (fun p => p.2)

/-- Python `d[k]` : `KeyError` when the key is absent. -/
def dictGetE {α : Type} (m : List (String × α)) (k : String) : Except PyError α :=
  match dictLookup m k with
  | some v => Except.ok v
  | none => Except.error (PyError.keyError k)

/-- Python `lst[i]` : `IndexError` when out of range. -/
def listGetE {α : Type} (l : List α) (i : Nat) : Except PyError α :=
  match l[i]? with
  | some v => Except.ok v
  | none => Except.error (PyError.indexError i)

/-! ## readMTLFile (config.py lines 546-558)

```
dict = {}
for line in open(mtl):
    arr = line.split('=')
    if len(arr) == 2:
        (key, value) = arr
        dict[key.strip()] = value.replace('"', '').strip()
return dict
```
The file is modelled as its list of lines; the dictionary as a function
`String → Option String` built by imperative update. -/

/-- Python `str.replace` of a single character by the empty string. -/
def removeChar (c : Char) (s : String) : String :=
  String.mk (s.data.filter (fun x => x ≠ c))

/-- One iteration of the `readMTLFile` loop body applied to the dictionary. -/
def readMTLStep (d : String → Option String) (line : String) :
    String → Option String :=
  match pySplit line '=' with
  | [key, value] =>
      fun x => if x = pyStrip key then some (pyStrip (removeChar '"' value)) else d x
  | _ => d

/-- `readMTLFile`, the file given as its list of lines. -/
def readMTLFile (lines : List String) : String → Option String :=
  lines.foldl readMTLStep (fun _ => none)

/-! ## ThermalFileInfo (config.py lines 281-315) -/

/-- Parameters for interpreting the thermal file (`ThermalFileInfo.__init__`,
config.py lines 293-299).  The numeric fields are Python floats, modelled as
rationals. -/
structure ThermalFileInfo where
  thermalBand1040um : Nat
  thermalGain1040um : ℚ
  thermalOffset1040um : ℚ
  thermalK1_1040um : ℚ
  thermalK2_1040um : ℚ
  deriving DecidableEq, Repr

/-- `scipy.constants.zero_Celsius` = 273.15 (config.py line 307). -/
def KELVIN_ZERO_DEGC : ℚ := 27315 / 100

/-- `ThermalFileInfo.scaleThermalDNtoC` (config.py lines 301-315).  The input
stack `scaledBT` is a list of bands, each band a (flattened) array of DN
values; all numpy operations in the source are elementwise.
`scaledBT[self.thermalBand1040um]` raises `IndexError` when the band index is
out of range.  `rad[rad <= 0] = 0.00001` is the elementwise masked
assignment; `numpy.log` is the natural logarithm, modelled by `Real.log`. -/
noncomputable def ThermalFileInfo.scaleThermalDNtoC (info : ThermalFileInfo)
    (scaledBT : List (List ℚ)) : Except PyError (List ℝ) :=
  match scaledBT[info.thermalBand1040um]? with
  | none => Except.error (PyError.indexError info.thermalBand1040um)
  | some dn =>
    let rad := dn.map (fun x => x * info.thermalGain1040um + info.thermalOffset1040um)
    let rad := rad.map (fun r => if r ≤ 0 then 1 / 100000 else r)
    let temp := rad.map (fun (r : ℚ) =>
      (info.thermalK2_1040um : ℝ) / Real.log ((info.thermalK1_1040um : ℝ) / (r : ℝ) + 1))
    Except.ok (temp.map (fun t => t - (KELVIN_ZERO_DEGC : ℝ)))

/-- The per-pixel formula as the specification states it: radiance
`= DN * gain + offset`, clamped to `1e-5` when `≤ 0`, then
`K2 / ln(K1/radiance + 1) - 273.15`. -/
noncomputable def thermalPixelSpec (info : ThermalFileInfo) (dn : ℚ) : ℝ :=
  let rad : ℚ := dn * info.thermalGain1040um + info.thermalOffset1040um
  let rad : ℚ := if rad ≤ 0 then 1 / 100000 else rad
  (info.thermalK2_1040um : ℝ) / Real.log ((info.thermalK1_1040um : ℝ) / (rad : ℝ) + 1)
    - (27315 / 100 : ℝ)

/-! ## readThermalInfoFromLandsatMTL (config.py lines 317-383) -/

/-- `LANDSAT_RADIANCE_MULT % band` (config.py line 318). -/
def LANDSAT_RADIANCE_MULT (band : String) : String :=
  "RADIANCE_MULT_BAND_" ++ band

/-- `LANDSAT_RADIANCE_ADD % band` (config.py line 319). -/
def LANDSAT_RADIANCE_ADD (band : String) : String :=
  "RADIANCE_ADD_BAND_" ++ band

/-- `LANDSAT_K1_CONST % band` (config.py line 320). -/
def LANDSAT_K1_CONST (band : String) : String :=
  "K1_CONSTANT_BAND_" ++ band

/-- `LANDSAT_K2_CONST % band` (config.py line 321). -/
def LANDSAT_K2_CONST (band : String) : String :=
  "K2_CONSTANT_BAND_" ++ band

/-- Band numbers in the mtl file for gain and offset for thermal
(config.py lines 324-327). -/
def LANDSAT_TH_BAND_NUM_DICT : List (String × String) :=
  [("LANDSAT_4", "6"), ("LANDSAT_5", "6"),
   ("LANDSAT_7", "6_VCID_1"), ("LANDSAT_8", "10")]

/-- Hardcoded K1 fallback constants (config.py line 334). -/
def LANDSAT_K1_DICT : List (String × ℚ) :=
  [("TM", 60776 / 100), ("ETM", 66609 / 100)]

/-- Hardcoded K2 fallback constants (config.py line 335). -/
def LANDSAT_K2_DICT : List (String × ℚ) :=
  [("TM", 126056 / 100), ("ETM", 128271 / 100)]

/-- `readThermalInfoFromLandsatMTL` (config.py lines 337-383), from the
already-parsed MTL dictionary (`mtlData = readMTLFile(mtlfile)`), given as an
association list of string keys and values.  Faithful points of the source:
the local `band` is only assigned inside the `SPACECRAFT_ID` branch, so the
`SENSOR_ID` branch raises `UnboundLocalError` if `SPACECRAFT_ID` was absent
(line 362); and BOTH fallback constants are read from `LANDSAT_K1_DICT`
(lines 367 and 374). -/
def readThermalInfoFromLandsatMTL (mtlData : List (String × String))
    (thermalBand1040um : Nat := 0) : Except PyError ThermalFileInfo := do
  let mut gain : Option ℚ := none
  let mut offset : Option ℚ := none
  let mut k1 : Option ℚ := none
  let mut k2 : Option ℚ := none
  let mut band : Option String := none
  if (dictLookup mtlData "SPACECRAFT_ID").isSome then
    let spaceCraft ← dictGetE mtlData "SPACECRAFT_ID"
    let b ← dictGetE LANDSAT_TH_BAND_NUM_DICT spaceCraft
    band := some b
    gain := some (← pyFloatE (← dictGetE mtlData (LANDSAT_RADIANCE_MULT b)))
    offset := some (← pyFloatE (← dictGetE mtlData (LANDSAT_RADIANCE_ADD b)))
  if (dictLookup mtlData "SENSOR_ID").isSome then
    let sensor ← dictGetE mtlData "SENSOR_ID"
    let b ← match band with
      | some b => pure b
      | none => Except.error (PyError.unboundLocalError "band")
    match dictLookup mtlData (LANDSAT_K1_CONST b) with
    | some v => k1 := some (← pyFloatE v)
    | none => k1 := some (← dictGetE LANDSAT_K1_DICT sensor)
    match dictLookup mtlData (LANDSAT_K2_CONST b) with
    | some v => k2 := some (← pyFloatE v)
    | none => k2 := some (← dictGetE LANDSAT_K1_DICT sensor)
  match gain, offset, k1, k2 with
  | some g, some o, some a, some b2 =>
      return ThermalFileInfo.mk thermalBand1040um g o a b2
  | _, _, _, _ =>
      Except.error (PyError.fmaskFileError "Cannot find SPACECRAFT_ID/SENSOR_ID in MTL file")

/-! ## AnglesFileInfo (config.py lines 429-508) -/

/-- A Python value that may be an int or a str: the `bandNum` parameter of
`AnglesFileInfo.readData` is untyped, and `prepareForQuerying` in the source
passes a filename (a string) where an int is expected. -/
inductive PyVal where
  | int (n : Nat)
  | str (s : String)
  deriving DecidableEq, Repr

/-- Abstraction of the GDAL-readable filesystem: a filename and a ONE-based
band number yield the band's (flattened) pixel array when the file has such
a band. -/
def Raster : Type := String → Nat → Option (List ℚ)

/-- `AnglesFileInfo.readData` (config.py lines 456-462):
`ds.GetRasterBand(bandNum + 1)` followed by `ReadAsArray`.  `bandNum + 1` on
a string raises `TypeError` (string plus int); a band `GetRasterBand` does
not have comes back as `None`, so `ReadAsArray` raises `AttributeError`. -/
def readData (fs : Raster) (filename : String) (bandNum : PyVal) :
    Except PyError (List ℚ) :=
  match bandNum with
  | PyVal.str _ => Except.error (PyError.typeError "can only concatenate str (not int) to str")
  | PyVal.int n =>
    match fs filename (n + 1) with
    | some data => Except.ok data
    | none => Except.error (PyError.attributeError "NoneType object has no attribute ReadAsArray")

/-- The state of an `AnglesFileInfo` object: the constructor arguments
(config.py lines 441-448) and the four data buffers, `None` until
`prepareForQuerying` fills them (lines 449-454). -/
structure AnglesFileInfo where
  solarZenithFilename : String
  solarZenithBand : Nat
  solarAzimuthFilename : String
  solarAzimuthBand : Nat
  viewZenithFilename : String
  viewZenithBand : Nat
  viewAzimuthFilename : String
  viewAzimuthBand : Nat
  solarZenithData : Option (List ℚ) := none
  solarAzimuthData : Option (List ℚ) := none
  viewZenithData : Option (List ℚ) := none
  viewAzimuthData : Option (List ℚ) := none

/-- `AnglesFileInfo.__init__` (config.py lines 434-454): stores the four
(filename, zero-based band) pairs and leaves the four data buffers unset. -/
def AnglesFileInfo.init (szf : String) (szb : Nat) (saf : String) (sab : Nat)
    (vzf : String) (vzb : Nat) (vaf : String) (vab : Nat) : AnglesFileInfo :=
  { solarZenithFilename := szf, solarZenithBand := szb,
    solarAzimuthFilename := saf, solarAzimuthBand := sab,
    viewZenithFilename := vzf, viewZenithBand := vzb,
    viewAzimuthFilename := vaf, viewAzimuthBand := vab }

/-- `AnglesFileInfo.prepareForQuerying` (config.py lines 464-475), exactly as
written in the source: each call is
`self.readData(self.<quantity>Filename, self.<quantity>Filename)` — the
FILENAME is passed as the `bandNum` argument; the stored band attributes are
not used. -/
def AnglesFileInfo.prepareForQuerying (fs : Raster) (a : AnglesFileInfo) :
    Except PyError AnglesFileInfo := do
  let sz ← readData fs a.solarZenithFilename (PyVal.str a.solarZenithFilename)
  let sa ← readData fs a.solarAzimuthFilename (PyVal.str a.solarAzimuthFilename)
  let vz ← readData fs a.viewZenithFilename (PyVal.str a.viewZenithFilename)
  let va ← readData fs a.viewAzimuthFilename (PyVal.str a.viewAzimuthFilename)
  return { a with solarZenithData := some sz, solarAzimuthData := some sa,
                  viewZenithData := some vz, viewAzimuthData := some va }

/-- What `prepareForQuerying` would have to do for the claim "reads exactly
the band index given at construction, converted to one-based" to hold:
`readData(filename, band)` for each quantity.  Stated from the claim for
comparison with the source's behaviour. -/
def AnglesFileInfo.prepareForQueryingClaim (fs : Raster) (a : AnglesFileInfo) :
    Except PyError AnglesFileInfo := do
  let sz ← readData fs a.solarZenithFilename (PyVal.int a.solarZenithBand)
  let sa ← readData fs a.solarAzimuthFilename (PyVal.int a.solarAzimuthBand)
  let vz ← readData fs a.viewZenithFilename (PyVal.int a.viewZenithBand)
  let va ← readData fs a.viewAzimuthFilename (PyVal.int a.viewAzimuthBand)
  return { a with solarZenithData := some sz, solarAzimuthData := some sa,
                  viewZenithData := some vz, viewAzimuthData := some va }

/-- numpy fancy indexing `data[indices]`: out-of-range raises `IndexError`. -/
def fancyIndex (data : List ℚ) (indices : List Nat) : Except PyError (List ℚ) :=
  indices.mapM (fun i =>
    match data[i]? with
    | some v => Except.ok v
    | none => Except.error (PyError.indexError i))

/-- numpy `.mean()` as exact rational sum/length.  (numpy's NaN on an empty
selection is not modelled; the theorems below never take the mean of an
empty selection.) -/
def npMean (xs : List ℚ) : ℚ := xs.sum / xs.length

/-- `AnglesFileInfo.getSolarZenithAngle` (config.py lines 486-490):
`self.solarZenithData[indices].mean()`.  Subscripting an unset (`None`)
buffer raises `TypeError`. -/
def AnglesFileInfo.getSolarZenithAngle (a : AnglesFileInfo) (indices : List Nat) :
    Except PyError ℚ :=
  match a.solarZenithData with
  | none => Except.error (PyError.typeError "NoneType object is not subscriptable")
  | some d => do return npMean (← fancyIndex d indices)

/-- `AnglesFileInfo.getSolarAzimuthAngle` (config.py lines 492-496). -/
def AnglesFileInfo.getSolarAzimuthAngle (a : AnglesFileInfo) (indices : List Nat) :
    Except PyError ℚ :=
  match a.solarAzimuthData with
  | none => Except.error (PyError.typeError "NoneType object is not subscriptable")
  | some d => do return npMean (← fancyIndex d indices)

/-- `AnglesFileInfo.getViewZenithAngle` (config.py lines 498-502). -/
def AnglesFileInfo.getViewZenithAngle (a : AnglesFileInfo) (indices : List Nat) :
    Except PyError ℚ :=
  match a.viewZenithData with
  | none => Except.error (PyError.typeError "NoneType object is not subscriptable")
  | some d => do return npMean (← fancyIndex d indices)

/-- `AnglesFileInfo.getViewAzimuthAngle` (config.py lines 504-508). -/
def AnglesFileInfo.getViewAzimuthAngle (a : AnglesFileInfo) (indices : List Nat) :
    Except PyError ℚ :=
  match a.viewAzimuthData with
  | none => Except.error (PyError.typeError "NoneType object is not subscriptable")
  | some d => do return npMean (← fancyIndex d indices)

/-! ## AngleConstantInfo (config.py lines 510-544) -/

/-- `AngleConstantInfo.__init__` (config.py lines 515-520): stores four
scalars.  Python is untyped, so the element type is a parameter; the
consumers below use `ℝ`. -/
structure AngleConstantInfo (α : Type) where
  solarZenithAngle : α
  solarAzimuthAngle : α
  viewZenithAngle : α
  viewAzimuthAngle : α
  deriving DecidableEq, Repr

/-- `AngleConstantInfo.getSolarZenithAngle` (config.py lines 522-526): the
`indices` argument is ignored. -/
def AngleConstantInfo.getSolarZenithAngle {α : Type} (a : AngleConstantInfo α)
    (_indices : List Nat) : α := a.solarZenithAngle

/-- `AngleConstantInfo.getSolarAzimuthAngle` (config.py lines 528-532). -/
def AngleConstantInfo.getSolarAzimuthAngle {α : Type} (a : AngleConstantInfo α)
    (_indices : List Nat) : α := a.solarAzimuthAngle

/-- `AngleConstantInfo.getViewZenithAngle` (config.py lines 534-538). -/
def AngleConstantInfo.getViewZenithAngle {α : Type} (a : AngleConstantInfo α)
    (_indices : List Nat) : α := a.viewZenithAngle

/-- `AngleConstantInfo.getViewAzimuthAngle` (config.py lines 540-544). -/
def AngleConstantInfo.getViewAzimuthAngle {α : Type} (a : AngleConstantInfo α)
    (_indices : List Nat) : α := a.viewAzimuthAngle

/-! ## readAnglesFromLandsatMTL (config.py lines 561-582) -/

/-- `numpy.radians`: degrees to radians. -/
noncomputable def radians (x : ℚ) : ℝ := (x : ℝ) * Real.pi / 180

/-- `readAnglesFromLandsatMTL` (config.py lines 561-582), from the
already-parsed MTL dictionary (`mtlInfo = readMTLFile(mtlfile)`):
`saa = radians(float(mtlInfo['SUN_AZIMUTH']))` when present,
`sza = radians(90.0 - float(mtlInfo['SUN_ELEVATION']))` when present;
`FmaskFileError` when either stayed `None`; returns
`AngleConstantInfo(sza, saa, 0.0, 0.0)`. -/
noncomputable def readAnglesFromLandsatMTL (mtlInfo : List (String × String)) :
    Except PyError (AngleConstantInfo ℝ) := do
  let saa : Option ℝ ←
    if (dictLookup mtlInfo "SUN_AZIMUTH").isSome then do
      pure (some (radians (← pyFloatE (← dictGetE mtlInfo "SUN_AZIMUTH"))))
    else pure none
  let sza : Option ℝ ←
    if (dictLookup mtlInfo "SUN_ELEVATION").isSome then do
      pure (some (radians ((90 : ℚ) - (← pyFloatE (← dictGetE mtlInfo "SUN_ELEVATION")))))
    else pure none
  match saa, sza with
  | some a, some z => return AngleConstantInfo.mk z a 0 0
  | _, _ =>
      Except.error (PyError.fmaskFileError "Cannot find SUN_AZIMUTH/SUN_ELEVATION fields in MTL file")

/-! ## FmaskConfig band mapping (config.py lines 31-123) -/

/-- `FMASK_LANDSAT47` (config.py line 32). -/
def FMASK_LANDSAT47 : Nat := 0
/-- `FMASK_LANDSAT8` (config.py line 34). -/
def FMASK_LANDSAT8 : Nat := 1
/-- `FMASK_SENTINEL2` (config.py line 36). -/
def FMASK_SENTINEL2 : Nat := 2

/-- The reflective-band role constants `BAND_*` (config.py lines 42-54), as
an enumeration (their integer values only serve as distinct dict keys). -/
inductive Band where
  | blue | green | red | nir | cirrus | swir1 | swir2
  deriving DecidableEq, Repr

/-- All seven band roles. -/
def allBands : List Band :=
  [Band.blue, Band.green, Band.red, Band.nir, Band.cirrus, Band.swir1, Band.swir2]

/-- The band-mapping state of `FmaskConfig`: the sensor and the `bands`
dictionary from role to zero-based file index.  (The thermal/angles/driver
and buffer-size fields of the Python object are independent of the band
mapping and are not modelled.) -/
structure FmaskConfig where
  sensor : Nat
  bands : Band → Option Nat

/-- `FmaskConfig.__init__` (config.py lines 61-82): the per-sensor default
`bands` dictionaries, `FmaskParameterError` on an unrecognised sensor. -/
def FmaskConfig.init (sensor : Nat) : Except PyError FmaskConfig :=
  if sensor = FMASK_LANDSAT47 then
    Except.ok ⟨sensor, fun b => match b with
      | Band.blue => some 0 | Band.green => some 1 | Band.red => some 2
      | Band.nir => some 3 | Band.swir1 => some 4 | Band.swir2 => some 5
      | Band.cirrus => none⟩
  else if sensor = FMASK_LANDSAT8 then
    Except.ok ⟨sensor, fun b => match b with
      | Band.blue => some 1 | Band.green => some 2 | Band.red => some 3
      | Band.nir => some 4 | Band.swir1 => some 5 | Band.swir2 => some 6
      | Band.cirrus => some 7⟩
  else if sensor = FMASK_SENTINEL2 then
    Except.ok ⟨sensor, fun b => match b with
      | Band.blue => some 1 | Band.green => some 2 | Band.red => some 3
      | Band.nir => some 6 | Band.swir1 => some 10 | Band.swir2 => some 11
      | Band.cirrus => some 9⟩
  else
    Except.error (PyError.fmaskParameterError "unrecognised sensor")

/-- `FmaskConfig.setReflectiveBand` (config.py lines 113-123):
`self.bands[band] = index`, an unconditional dictionary assignment. -/
def FmaskConfig.setReflectiveBand (c : FmaskConfig) (band : Band) (index : Nat) :
    FmaskConfig :=
  { c with bands := fun b => if b = band then some index else c.bands b }

/-- No two configured band roles share a file index: the list of assigned
indices over all roles has no duplicate. -/
def bandsDistinct (c : FmaskConfig) : Prop :=
  (allBands.filterMap c.bands).Nodup

instance (c : FmaskConfig) : Decidable (bandsDistinct c) := by
  unfold bandsDistinct; infer_instance

/-! ## getMeanSunAngles (bin/fmask_sentinel2Stacked.py lines 55-68) -/

/-- A minidom element: tag name, text content of its first child text node
(`firstChild.data`; `none` when the element is empty, where `firstChild` is
`None`), and child elements. -/
inductive XmlNode where
  | mk (tag : String) (text : Option String) (children : List XmlNode)

/-- Tag name of an element. -/
def XmlNode.tag : XmlNode → String
  | XmlNode.mk t _ _ => t

/-- `firstChild.data` of an element, when the element has a text child. -/
def XmlNode.text : XmlNode → Option String
  | XmlNode.mk _ x _ => x

/-- Child elements of an element. -/
def XmlNode.children : XmlNode → List XmlNode
  | XmlNode.mk _ _ c => c

mutual

/-- DOM `getElementsByTagName`: all descendant elements with the given tag,
in document order, the node itself included when it matches.  (A parsed
minidom Document is modelled as a node whose synthetic tag, for example
"#document", matches no element tag.) -/
def getElementsByTagName (n : XmlNode) (tag : String) : List XmlNode :=
  match n with
  | XmlNode.mk t x cs =>
      (if t = tag then [XmlNode.mk t x cs] else []) ++ elementsByTagOfList cs tag

/-- `getElementsByTagName` over a list of sibling elements. -/
def elementsByTagOfList (ns : List XmlNode) (tag : String) : List XmlNode :=
  match ns with
  | [] => []
  | n :: rest => getElementsByTagName n tag ++ elementsByTagOfList rest tag

end

/-- `firstChild.data`: `AttributeError` when `firstChild` is `None`. -/
def firstChildData (n : XmlNode) : Except PyError String :=
  match n.text with
  | some s => Except.ok s
  | none => Except.error (PyError.attributeError "NoneType object has no attribute data")

/-- `getMeanSunAngles` (bin/fmask_sentinel2Stacked.py lines 55-68), the
parsed XML document given as a node tree: takes the FIRST
`Mean_Sun_Angle` element, reads `float(...)` of the first `ZENITH_ANGLE`
and `AZIMUTH_ANGLE` children's text, and returns
`config.AngleConstantInfo(zenith, azimuth, 0, 0)` with those raw values.
No unit conversion is applied, so the result is exact rationals. -/
def getMeanSunAngles (xmldoc : XmlNode) :
    Except PyError (AngleConstantInfo ℚ) := do
  let itemList := getElementsByTagName xmldoc "Mean_Sun_Angle"
  let item0 ← listGetE itemList 0
  let zenList := getElementsByTagName item0 "ZENITH_ANGLE"
  let zenith ← pyFloatE (← firstChildData (← listGetE zenList 0))
  let aziList := getElementsByTagName item0 "AZIMUTH_ANGLE"
  let azimuth ← pyFloatE (← firstChildData (← listGetE aziList 0))
  return AngleConstantInfo.mk zenith azimuth 0 0

/-! ## Specification-side definitions and concrete inputs used by the
theorems -/

/-- Per-line entry of `readMTLFile` as the code computes it: exactly one `=`
splits the line; the key is whitespace-stripped; the value has every
double-quote character removed and is then whitespace-stripped. -/
def mtlLineEntry (line : String) : Option (String × String) :=
  match pySplit line '=' with
  | [key, value] => some (pyStrip key, pyStrip (removeChar '"' value))
  | _ => none

/-- The entry a single line contributes for a given key, if any. -/
def mtlEntryFor (k : String) (line : String) : Option String :=
  match mtlLineEntry line with
  | some kv => if k = kv.1 then some kv.2 else none
  | none => none

/-- The value of the LAST line contributing an entry for `k` (last
occurrence wins). -/
def mtlLastValue (lines : List String) (k : String) : Option String :=
  List.findSome? (mtlEntryFor k) lines.reverse

/-- "Trimmed of whitespace and surrounding quote characters", as the claim
for `readMTLFile` words it: strip whitespace, then strip quote characters
from both ends. -/
def claimTrim (s : String) : String :=
  let t := (pyStrip s).data
  String.mk ((t.dropWhile (fun c => c = '"')).reverse.dropWhile (fun c => c = '"')).reverse

/-- An MTL mapping with spacecraft, sensor, gain/offset and K1, but no
`K2_CONSTANT_BAND_6` key: the K2 fallback path. -/
def mtlMissingK2 : List (String × String) :=
  [("SPACECRAFT_ID", "LANDSAT_5"), ("RADIANCE_MULT_BAND_6", "1"),
   ("RADIANCE_ADD_BAND_6", "0"), ("SENSOR_ID", "TM"), ("K1_CONSTANT_BAND_6", "607")]

/-- A small raster filesystem: every file has five one-pixel bands, band
`b` (one-based) holding the value `b`. -/
def demoRaster : Raster := fun _ b => if b ≤ 5 then some [(b : ℚ)] else none

/-- A granule XML document carrying a `Mean_Sun_Angle` element with zenith
45 and azimuth 180 (degrees, per the Sentinel-2 format). -/
def s2granuleXml : XmlNode :=
  XmlNode.mk "#document" none [XmlNode.mk "Tile_Angles" none
    [XmlNode.mk "Mean_Sun_Angle" none
      [XmlNode.mk "ZENITH_ANGLE" (some "45") [],
       XmlNode.mk "AZIMUTH_ANGLE" (some "180") []]]]

/-! ## Theorems -/

/-- C10: every `AngleConstantInfo` query method returns the corresponding
constructor argument for every region argument (any `indices` list, the
empty one included); the region has no effect on the result. -/
theorem angleConstantInfo_getters_return_ctor_args {α : Type} (a b c d : α)
    (indices : List Nat) :
    (AngleConstantInfo.mk a b c d).getSolarZenithAngle indices = a ∧
    (AngleConstantInfo.mk a b c d).getSolarAzimuthAngle indices = b ∧
    (AngleConstantInfo.mk a b c d).getViewZenithAngle indices = c ∧
    (AngleConstantInfo.mk a b c d).getViewAzimuthAngle indices = d :=
  ⟨rfl, rfl, rfl, rfl⟩

/-- C6: on a freshly constructed `AnglesFileInfo` (the four data buffers
unset), each of the four angle-query methods fails with a defined error
(`TypeError` from subscripting the unset buffer) and never returns a
value. -/
theorem anglesFileInfo_query_unprepared_errors (szf saf vzf vaf : String)
    (szb sab vzb vab : Nat) (indices : List Nat) :
    (AnglesFileInfo.init szf szb saf sab vzf vzb vaf vab).getSolarZenithAngle indices
      = Except.error (PyError.typeError "NoneType object is not subscriptable") ∧
    (AnglesFileInfo.init szf szb saf sab vzf vzb vaf vab).getSolarAzimuthAngle indices
      = Except.error (PyError.typeError "NoneType object is not subscriptable") ∧
    (AnglesFileInfo.init szf szb saf sab vzf vzb vaf vab).getViewZenithAngle indices
      = Except.error (PyError.typeError "NoneType object is not subscriptable") ∧
    (AnglesFileInfo.init szf szb saf sab vzf vzb vaf vab).getViewAzimuthAngle indices
      = Except.error (PyError.typeError "NoneType object is not subscriptable") :=
  ⟨rfl, rfl, rfl, rfl⟩

/-- C1: `prepareForQuerying` never reads the band indices given at
construction: the source passes each FILENAME as the `bandNum` argument, so
on every filesystem and every `AnglesFileInfo` it raises `TypeError`
(string + int) instead; by contrast the behaviour the claim describes
(`readData(filename, band)` per quantity, one-based internally) succeeds on
a concrete filesystem and fills the buffer from the configured band. -/
theorem prepareForQuerying_passes_filename_as_band (fs : Raster) (a : AnglesFileInfo) :
    a.prepareForQuerying fs
      = Except.error (PyError.typeError "can only concatenate str (not int) to str") ∧
    ((AnglesFileInfo.init "sz" 0 "sa" 1 "vz" 2 "va" 3).prepareForQueryingClaim
        demoRaster).map AnglesFileInfo.solarZenithData
      = Except.ok (some [(1 : ℚ)]) :=
  ⟨rfl, rfl⟩

/-- C7: with `SENSOR_ID` present but `SPACECRAFT_ID` absent,
`readThermalInfoFromLandsatMTL` fails through `UnboundLocalError` (the local
`band` is only assigned in the `SPACECRAFT_ID` branch, yet line 362 uses
it), not through the documented configuration/file-format errors; likewise
with both identifiers present but the gain key absent it fails through
`KeyError`. -/
theorem readThermalInfo_missing_keys_raise_builtin_errors :
    readThermalInfoFromLandsatMTL [("SENSOR_ID", "TM")] 0
      = Except.error (PyError.unboundLocalError "band") ∧
    readThermalInfoFromLandsatMTL [("SPACECRAFT_ID", "LANDSAT_5"), ("SENSOR_ID", "TM")] 0
      = Except.error (PyError.keyError "RADIANCE_MULT_BAND_6") :=
  ⟨rfl, rfl⟩

/-- C2: on an MTL mapping that has spacecraft LANDSAT_5 / sensor TM,
gain/offset and K1, but no `K2_CONSTANT_BAND_6`, the returned
`thermalK2_1040um` is 607.76 — the value of `LANDSAT_K1_DICT['TM']` — and
not the hardcoded per-sensor K2 constant 1260.56 held in
`LANDSAT_K2_DICT`, which the fallback at config.py line 374 never reads. -/
theorem readThermalInfo_k2_fallback_reads_k1_dict :
    (readThermalInfoFromLandsatMTL mtlMissingK2 0).map ThermalFileInfo.thermalK2_1040um
      = Except.ok (60776 / 100) ∧
    dictLookup mtlMissingK2 (LANDSAT_K2_CONST "6") = none ∧
    dictLookup LANDSAT_K1_DICT "TM" = some (60776 / 100) ∧
    dictLookup LANDSAT_K2_DICT "TM" = some (126056 / 100) ∧
    ((60776 / 100 : ℚ) ≠ 126056 / 100) :=
  ⟨rfl, rfl, rfl, rfl, by norm_num⟩

/-- C3: on a granule XML whose first `Mean_Sun_Angle` carries zenith 45 and
azimuth 180 (degrees), `getMeanSunAngles` returns the raw degree values
45 and 180 (with zero view angles); the degree value 45 is NOT the
radian value `radians 45` the AnglesInfo data model calls for. -/
theorem getMeanSunAngles_returns_degrees_not_radians :
    getMeanSunAngles s2granuleXml = Except.ok (AngleConstantInfo.mk 45 180 0 0) ∧
    ((45 : ℚ) : ℝ) ≠ radians 45 := by
  refine ⟨rfl, ?_⟩
  unfold radians
  intro hEq
  push_cast at hEq
  have hpi := Real.pi_lt_d2
  linarith

/-- One loop iteration of `readMTLFile` read back at a key: the line's own
entry if it matches, else what the dictionary already held. -/
theorem readMTLStep_apply (d : String → Option String) (line k : String) :
    readMTLStep d line k = (mtlEntryFor k line).or (d k) := by
  unfold readMTLStep mtlEntryFor mtlLineEntry
  rcases h : pySplit line '=' with _ | ⟨key, _ | ⟨value, _ | ⟨w, rest⟩⟩⟩ <;>
    simp only []
  · rfl
  · rfl
  · by_cases hk : k = pyStrip key <;> simp [hk, Option.or]
  · rfl

/-- Folding the `readMTLFile` loop from an arbitrary dictionary: the last
matching line wins, falling back to the initial dictionary. -/
theorem readMTLFile_foldl (lines : List String) (d : String → Option String)
    (k : String) :
    (lines.foldl readMTLStep d) k = (mtlLastValue lines k).or (d k) := by
  induction lines generalizing d with
  | nil => simp [mtlLastValue]
  | cons l ls ih =>
      rw [List.foldl_cons, ih]
      have hsingle : List.findSome? (mtlEntryFor k) [l] = mtlEntryFor k l := by
        cases h : mtlEntryFor k l <;> simp [List.findSome?_cons, h]
      have h1 : mtlLastValue (l :: ls) k = (mtlLastValue ls k).or (mtlEntryFor k l) := by
        unfold mtlLastValue
        rw [List.reverse_cons, List.findSome?_append, hsingle]
      rw [readMTLStep_apply, h1, Option.or_assoc]

/-- C5 (amended): `readMTLFile` maps each key to the value of the LAST line
with exactly one `=` whose whitespace-stripped left part is that key
(quote characters in the key are kept); the stored value is the right part
with every double-quote character removed and then whitespace-stripped;
lines without exactly one `=` (blank lines included) contribute nothing. -/
theorem readMTLFile_entry_semantics (lines : List String) (k : String) :
    readMTLFile lines k = mtlLastValue lines k := by
  unfold readMTLFile
  rw [readMTLFile_foldl, Option.or_none]

/-- C5 (counterexample to the claim as stated): on the line `a = b"c` the
code stores the value `bc` — every quote is removed, not only surrounding
ones — while the claim's trimming keeps the interior quote; and on the line
`"k" = 1` the key keeps its quotes, so the claim's key `k` is absent. -/
theorem readMTLFile_claim_counterexample :
    readMTLFile ["a = b\x22c"] "a" = some "bc" ∧
    claimTrim " b\x22c" = "b\x22c" ∧
    ("bc" : String) ≠ "b\x22c" ∧
    readMTLFile ["\x22k\x22 = 1"] "k" = none ∧
    claimTrim "\x22k\x22" = "k" :=
  ⟨rfl, rfl, by decide, rfl, rfl⟩

/-- C8 (counterexample to the claim as stated): starting from the Landsat
4-7 defaults, `setReflectiveBand(BAND_GREEN, 0)` makes Blue and Green share
index 0 (the mapping validates nothing), and `setReflectiveBand(BAND_CIRRUS, 3)`
adds a Cirrus entry to a Landsat 4-7 config. -/
theorem setReflectiveBand_violates_claimed_invariants :
    ∃ c : FmaskConfig, FmaskConfig.init FMASK_LANDSAT47 = Except.ok c ∧
      ¬ bandsDistinct (c.setReflectiveBand Band.green 0) ∧
      (c.setReflectiveBand Band.green 0).bands Band.blue = some 0 ∧
      (c.setReflectiveBand Band.green 0).bands Band.green = some 0 ∧
      (c.setReflectiveBand Band.cirrus 3).bands Band.cirrus = some 3 := by
  refine ⟨_, rfl, ?_, rfl, rfl, rfl⟩
  decide

/-- C8 (amended): for each of the three recognised sensor kinds, the band
mapping `FmaskConfig.__init__` constructs assigns a distinct file index to
every configured role, and the Landsat 4-7 mapping has no Cirrus entry.
(`setReflectiveBand` performs an unvalidated assignment, so these
invariants are only guaranteed for the constructed defaults.) -/
theorem fmaskConfig_init_bands_distinct (sensor : Nat) (c : FmaskConfig)
    (h : FmaskConfig.init sensor = Except.ok c) :
    bandsDistinct c ∧ (sensor = FMASK_LANDSAT47 → c.bands Band.cirrus = none) := by
  unfold FmaskConfig.init at h
  split_ifs at h with h0 h1 h2
  · injection h with h
    subst h0; subst h
    exact ⟨by decide, fun _ => rfl⟩
  · injection h with h
    subst h1; subst h
    exact ⟨by decide, fun hs => absurd hs (by decide)⟩
  · injection h with h
    subst h2; subst h
    exact ⟨by decide, fun hs => absurd hs (by decide)⟩

/-- Witness for C8 (amended): the Landsat 4-7 construction satisfies both
invariants. -/
theorem fmaskConfig_init_bands_distinct_witness :
    ∃ c : FmaskConfig, FmaskConfig.init FMASK_LANDSAT47 = Except.ok c ∧
      (bandsDistinct c ∧ (FMASK_LANDSAT47 = FMASK_LANDSAT47 → c.bands Band.cirrus = none)) :=
  ⟨_, rfl, fmaskConfig_init_bands_distinct FMASK_LANDSAT47 _ rfl⟩

/-- C4: on the configured thermal band, `scaleThermalDNtoC` computes
elementwise exactly radiance `= DN*gain + offset`, clamps non-positive
radiance to 1e-5 before the logarithm, takes `K2 / ln(K1/radiance + 1)`
and subtracts 273.15. -/
theorem scaleThermalDNtoC_elementwise (info : ThermalFileInfo)
    (scaledBT : List (List ℚ)) (dn : List ℚ)
    (h : scaledBT[info.thermalBand1040um]? = some dn) :
    info.scaleThermalDNtoC scaledBT = Except.ok (dn.map (thermalPixelSpec info)) := by
  unfold ThermalFileInfo.scaleThermalDNtoC
  rw [h]
  simp only [List.map_map]
  refine congrArg Except.ok (List.map_congr_left ?_)
  intro x _
  simp only [Function.comp, thermalPixelSpec, KELVIN_ZERO_DEGC]
  push_cast
  norm_num

/-- Witness for C4: a one-band stack holding DN values 1 and -1 (the
latter giving non-positive radiance) under gain 1, offset 0, K1 = K2 = 1. -/
theorem scaleThermalDNtoC_elementwise_witness :
    (([[(1 : ℚ), -1]] : List (List ℚ))[(0 : Nat)]? = some [1, -1]) ∧
    (ThermalFileInfo.mk 0 1 0 1 1).scaleThermalDNtoC [[1, -1]]
      = Except.ok (([1, -1] : List ℚ).map (thermalPixelSpec (ThermalFileInfo.mk 0 1 0 1 1))) :=
  ⟨rfl, scaleThermalDNtoC_elementwise (ThermalFileInfo.mk 0 1 0 1 1) [[1, -1]] [1, -1] rfl⟩

/-- C9: with both `SUN_AZIMUTH` and `SUN_ELEVATION` present (and parsing as
floats az and el), `readAnglesFromLandsatMTL` returns a constant-angles
object with solar zenith `radians(90 - el)`, solar azimuth `radians(az)`,
and both view angles exactly 0; with either key absent (present keys
parsing), it raises `FmaskFileError`. -/
theorem readAnglesFromLandsatMTL_radians_or_error :
    (∀ (m : List (String × String)) (sA sE : String) (az el : ℚ),
        dictLookup m "SUN_AZIMUTH" = some sA → pyFloat sA = some az →
        dictLookup m "SUN_ELEVATION" = some sE → pyFloat sE = some el →
        readAnglesFromLandsatMTL m
          = Except.ok (AngleConstantInfo.mk (radians (90 - el)) (radians az) 0 0)) ∧
    (∀ (m : List (String × String)),
        (∀ s, dictLookup m "SUN_AZIMUTH" = some s → (pyFloat s).isSome) →
        (∀ s, dictLookup m "SUN_ELEVATION" = some s → (pyFloat s).isSome) →
        (dictLookup m "SUN_AZIMUTH" = none ∨ dictLookup m "SUN_ELEVATION" = none) →
        readAnglesFromLandsatMTL m
          = Except.error (PyError.fmaskFileError
              "Cannot find SUN_AZIMUTH/SUN_ELEVATION fields in MTL file")) := by
  constructor
  · intro m sA sE az el hA hpA hE hpE
    simp [readAnglesFromLandsatMTL, hA, hE, dictGetE, pyFloatE, hpA, hpE,
      Except.instMonad, Except.bind, Except.map, Bind.bind, Pure.pure, Except.pure,
      Functor.map]
  · intro m hparseA hparseE habs
    rcases habs with h | h
    · cases hE : dictLookup m "SUN_ELEVATION" with
      | none => simp [readAnglesFromLandsatMTL, h, hE, dictGetE, pyFloatE,
          Except.instMonad, Except.bind, Bind.bind, Pure.pure, Except.pure]
      | some sE =>
          obtain ⟨el, hel⟩ := Option.isSome_iff_exists.mp (hparseE sE hE)
          simp [readAnglesFromLandsatMTL, h, hE, dictGetE, pyFloatE, hel,
            Except.instMonad, Except.bind, Bind.bind, Pure.pure, Except.pure]
    · cases hA : dictLookup m "SUN_AZIMUTH" with
      | none => simp [readAnglesFromLandsatMTL, h, hA, dictGetE, pyFloatE,
          Except.instMonad, Except.bind, Bind.bind, Pure.pure, Except.pure]
      | some sA =>
          obtain ⟨az, haz⟩ := Option.isSome_iff_exists.mp (hparseA sA hA)
          simp [readAnglesFromLandsatMTL, h, hA, dictGetE, pyFloatE, haz,
            Except.instMonad, Except.bind, Bind.bind, Pure.pure, Except.pure]

/-- Witness for C9: `SUN_AZIMUTH = 180`, `SUN_ELEVATION = 45` yields solar
zenith `radians(90 - 45)` and solar azimuth `radians(180)`, view angles
zero. -/
theorem readAnglesFromLandsatMTL_radians_witness :
    dictLookup [("SUN_AZIMUTH", "180"), ("SUN_ELEVATION", "45")] "SUN_AZIMUTH" = some "180" ∧
    pyFloat "180" = some 180 ∧
    dictLookup [("SUN_AZIMUTH", "180"), ("SUN_ELEVATION", "45")] "SUN_ELEVATION" = some "45" ∧
    pyFloat "45" = some 45 ∧
    readAnglesFromLandsatMTL [("SUN_AZIMUTH", "180"), ("SUN_ELEVATION", "45")]
      = Except.ok (AngleConstantInfo.mk (radians (90 - 45)) (radians 180) 0 0) :=
  ⟨rfl, rfl, rfl, rfl,
    readAnglesFromLandsatMTL_radians_or_error.1 _ "180" "45" 180 45 rfl rfl rfl rfl⟩

end Fmask
